import Mathlib

/-!
Verification of fitting-adventures: a linear least-squares fit driven through GSL's multifit
solver.

Shallow embedding of `src/main.cpp`.

* `double` is an abstract scalar type `α`.  Arithmetic statements are proved for exact
  arithmetic (commutative rings / ordered fields, instantiated at `ℚ`); the byte-level behaviour
  of `memcpy` is instantiated at 64-bit words (`Binary64`).
* The convergence test is stated over an arbitrary arithmetic (`DoubleArith`: the literal `1e-4`,
  `+`, `*`, `fabs`, `<`), in the order in which the code applies the operations.  Its two
  instances are exact arithmetic and IEEE-754 binary64 with round-to-nearest-even
  (`Binary64.arith`), the arithmetic the program runs in.
* A `gsl_vector` is the list of its elements, a `gsl_matrix` the list of its rows together with
  its two dimensions.
* The GSL library itself is not part of the repository.  The elementary vector/matrix routines
  and `gsl_multifit_test_delta` are transcribed from the library's documented behaviour; the
  solver type (`gsl_multifit_fdfsolver_lmsder`: its `alloc`, `set` and `iterate` entries) is a
  parameter.
* Console output (`cout`) is not modelled.
-/

namespace FittingAdventures

/-! ## GSL status codes (`gsl_errno.h`) -/

abbrev GSL_SUCCESS : Int := 0

abbrev GSL_CONTINUE : Int := -2

abbrev GSL_EINVAL : Int := 4

abbrev GSL_EBADTOL : Int := 13

abbrev GSL_EBADLEN : Int := 19

/-! ## GSL vectors and matrices -/

/-- The elements of a `gsl_vector`; its `size` is the length of the list. -/
abbrev gsl_vector (α : Type) := List α

/-- A `gsl_matrix` with `size1` rows and `size2` columns, stored row by row. -/
structure gsl_matrix (α : Type) where
  size1 : Nat
  size2 : Nat
  rows : List (List α)

/-- Well-formed matrix: `size1` rows of `size2` entries each. -/
def gsl_matrix.WF {α : Type} (m : gsl_matrix α) : Prop :=
  m.rows.length = m.size1 ∧ ∀ r ∈ m.rows, r.length = m.size2

instance {α : Type} (m : gsl_matrix α) : Decidable m.WF := by
  unfold gsl_matrix.WF
  infer_instance

/-- Element read `gsl_vector_get(v, i)`. -/
def gsl_vector_get {α : Type} [Zero α] (v : gsl_vector α) (i : Nat) : α :=
  v.getD i 0

/-- Element read `gsl_matrix_get(m, i, j)`. -/
def gsl_matrix_get {α : Type} [Zero α] (m : gsl_matrix α) (i j : Nat) : α :=
  (m.rows.getD i []).getD j 0

/-- Copy `dest := src`; refused with `GSL_EBADLEN` when the sizes differ. -/
def gsl_vector_memcpy {α : Type} (dest src : gsl_vector α) : Int × gsl_vector α :=
  if src.length ≠ dest.length then (GSL_EBADLEN, dest) else (GSL_SUCCESS, src)

/-- In-place scaling `a[i] *= x`. -/
def gsl_vector_scale {α : Type} [Mul α] (a : gsl_vector α) (x : α) : Int × gsl_vector α :=
  (GSL_SUCCESS, a.map (fun e => e * x))

/-- In-place shift `a[i] += x`. -/
def gsl_vector_add_constant {α : Type} [Add α] (a : gsl_vector α) (x : α) :
    Int × gsl_vector α :=
  (GSL_SUCCESS, a.map (fun e => e + x))

/-- In-place difference `a[i] -= b[i]`; refused with `GSL_EBADLEN` when the sizes differ. -/
def gsl_vector_sub {α : Type} [Sub α] (a b : gsl_vector α) : Int × gsl_vector α :=
  if a.length ≠ b.length then (GSL_EBADLEN, a)
  else (GSL_SUCCESS, List.zipWith (fun p q => p - q) a b)

/-- Fill every entry of the matrix with `x`. -/
def gsl_matrix_set_all {α : Type} (m : gsl_matrix α) (x : α) : gsl_matrix α :=
  { m with rows := m.rows.map (fun r => r.map (fun _ => x)) }

/-- Overwrite column `j` with the vector `v`; refused when `j` is out of range or the sizes
differ. -/
def gsl_matrix_set_col {α : Type} (m : gsl_matrix α) (j : Nat) (v : gsl_vector α) :
    Int × gsl_matrix α :=
  if m.size2 ≤ j then (GSL_EINVAL, m)
  else if v.length ≠ m.size1 then (GSL_EBADLEN, m)
  else (GSL_SUCCESS, { m with rows := List.zipWith (fun r e => r.set j e) m.rows v })

/-- The arithmetic of `double` as far as the convergence test uses it: the value of the literal
`1e-4`, addition, multiplication, `fabs` and the comparison `<`. -/
structure DoubleArith (α : Type) where
  tol : α
  add : α → α → α
  mul : α → α → α
  fabs : α → α
  lt : α → α → Bool

/-- Exact arithmetic in an ordered field, with `1e-4` read as `1/10000`. -/
def DoubleArith.exact {α : Type} [LinearOrderedField α] : DoubleArith α :=
  { tol := 1 / 10000
    add := fun a b => a + b
    mul := fun a b => a * b
    fabs := fun a => |a|
    lt := fun a b => decide (a < b) }

/-- The convergence test of GSL's multifit module (library routine, `multifit/convergence.c`):
`GSL_EBADTOL` when `epsrel < 0.0`, `GSL_SUCCESS` when
`fabs(dx_i) < epsabs + epsrel * fabs(x_i)` for each component of `x`, `GSL_CONTINUE`
otherwise. The tolerance is computed in the arithmetic `A`, in this order. -/
def gsl_multifit_test_delta {α : Type} [Zero α] (A : DoubleArith α) (dx x : gsl_vector α)
    (epsabs epsrel : α) : Int :=
  if A.lt epsrel 0 then GSL_EBADTOL
  else if (List.range x.length).all
      (fun i => A.lt (A.fabs (gsl_vector_get dx i))
        (A.add epsabs (A.mul epsrel (A.fabs (gsl_vector_get x i)))))
    then GSL_SUCCESS
  else GSL_CONTINUE

/-! ## class Vector -/

/-- The wrapper class `Vector`, owning one `gsl_vector`. -/
structure Vector (α : Type) where
  self : gsl_vector α

/-- Constructor `Vector(double *elements, size_t length)`: the first `length` elements. -/
def Vector.ofElements {α : Type} (elements : List α) (length : Nat) : Vector α :=
  ⟨elements.take length⟩

/-- Constructor `Vector(vector<double> v)`: all `v.size()` elements. -/
def Vector.ofStdVector {α : Type} (v : List α) : Vector α :=
  ⟨v.take v.length⟩

/-- Constructor `Vector(double start, double end, size_t length)`: `length` equally spaced
points, `step = (end - start) / (length - 1)` with `length - 1` computed in `size_t`. -/
def Vector.linspace {α : Type} [Field α] (start stop : α) (length : Nat) : Vector α :=
  let step : α := (stop - start) / (((length + 2 ^ 64 - 1) % 2 ^ 64 : Nat) : α)
  ⟨(List.range length).map (fun i => start + (i : α) * step)⟩

/-- Constructor `Vector(size_t length)`: `length` zeros. -/
def Vector.zeros {α : Type} [Zero α] (length : Nat) : Vector α :=
  ⟨List.replicate length 0⟩

/-! ## GSL multifit solver objects -/

/-- The struct `gsl_multifit_function_fdf`: the three callbacks are always `gsl_f`, `gsl_df`,
`gsl_fdf` and `params` is always the owning solver, so only the dimensions are recorded. -/
structure gsl_multifit_function_fdf where
  n : Nat
  p : Nat

/-- The prototype `gsl_multifit_proto`. -/
def gsl_multifit_proto : gsl_multifit_function_fdf :=
  ⟨0, 0⟩

/-- The struct `gsl_multifit_fdfsolver`: current estimate `x`, residual `f`, last step `dx` and
the private state of the solver type. -/
structure gsl_multifit_fdfsolver (α σ : Type) where
  x : gsl_vector α
  f : gsl_vector α
  dx : gsl_vector α
  state : σ
  deriving DecidableEq

/-- A solver type (`gsl_multifit_fdfsolver_type`), such as `gsl_multifit_fdfsolver_lmsder`:
the library's table of entry points. -/
structure gsl_multifit_fdfsolver_type (α σ : Type) where
  alloc : Nat → Nat → gsl_multifit_fdfsolver α σ
  set : gsl_multifit_fdfsolver α σ → gsl_multifit_function_fdf → gsl_vector α →
    gsl_multifit_fdfsolver α σ
  iterate : gsl_multifit_fdfsolver α σ → Int × gsl_multifit_fdfsolver α σ

/-! ## class Solver -/

/-- The class `Solver`. -/
structure Solver (α σ : Type) where
  pSolver : gsl_multifit_fdfsolver α σ
  type : gsl_multifit_fdfsolver_type α σ
  nPoints : Nat
  nParams : Nat
  gslMultifit : gsl_multifit_function_fdf
  initialParams : Vector α
  coords : Vector α
  y : Vector α

/-- The dimension invariants of a solver. -/
def Solver.Inv {α σ : Type} (s : Solver α σ) : Prop :=
  s.coords.self.length = s.nPoints ∧ s.y.self.length = s.nPoints ∧
    s.initialParams.self.length = s.nParams ∧ s.nParams ≤ s.nPoints

instance {α σ : Type} (s : Solver α σ) : Decidable s.Inv := by
  unfold Solver.Inv
  infer_instance

/-- Method `Solver::f`: `f = a*x_i + b - y_i` with `b = X[0]`, `a = X[1]`. -/
def Solver.f {α σ : Type} [Zero α] [Add α] [Sub α] [Mul α] (s : Solver α σ)
    (X : gsl_vector α) (f : gsl_vector α) : Int × gsl_vector α :=
  let f := (gsl_vector_memcpy f s.coords.self).2
  let f := (gsl_vector_scale f (gsl_vector_get X 1)).2
  let f := (gsl_vector_add_constant f (gsl_vector_get X 0)).2
  let f := (gsl_vector_sub f s.y.self).2
  (GSL_SUCCESS, f)

/-- Method `Solver::df`: `J_i0 = 1`, `J_i1 = x_i`. -/
def Solver.df {α σ : Type} [One α] (s : Solver α σ) (_X : gsl_vector α) (J : gsl_matrix α) :
    Int × gsl_matrix α :=
  let J := gsl_matrix_set_all J 1
  let J := (gsl_matrix_set_col J 1 s.coords.self).2
  (GSL_SUCCESS, J)

/-- Callback `gsl_f`. -/
def gsl_f {α σ : Type} [Zero α] [Add α] [Sub α] [Mul α] (X : gsl_vector α) (solver : Solver α σ)
    (f : gsl_vector α) : Int × gsl_vector α :=
  solver.f X f

/-- Callback `gsl_df`. -/
def gsl_df {α σ : Type} [One α] (X : gsl_vector α) (solver : Solver α σ) (J : gsl_matrix α) :
    Int × gsl_matrix α :=
  solver.df X J

/-- The control flow of `gsl_fdf` over arbitrary residual and Jacobian evaluations: the
residual first, and the Jacobian only when the residual succeeded. -/
def fdfOf {α : Type} (f : gsl_vector α → gsl_vector α → Int × gsl_vector α)
    (df : gsl_vector α → gsl_matrix α → Int × gsl_matrix α)
    (X : gsl_vector α) (fbuf : gsl_vector α) (J : gsl_matrix α) :
    Int × gsl_vector α × gsl_matrix α :=
  let r := f X fbuf
  if r.1 ≠ GSL_SUCCESS then (r.1, r.2, J)
  else
    let r' := df X J
    (r'.1, r.2, r'.2)

/-- Callback `gsl_fdf`. -/
def gsl_fdf {α σ : Type} [Zero α] [One α] [Add α] [Sub α] [Mul α] (X : gsl_vector α)
    (solver : Solver α σ) (f : gsl_vector α) (J : gsl_matrix α) :
    Int × gsl_vector α × gsl_matrix α :=
  fdfOf solver.f solver.df X f J

/-! ## Library entry points dispatching through the solver type -/

/-- Library call `gsl_multifit_fdfsolver_alloc(T, n, p)`. -/
def gsl_multifit_fdfsolver_alloc {α σ : Type} (T : gsl_multifit_fdfsolver_type α σ)
    (n p : Nat) : gsl_multifit_fdfsolver α σ :=
  T.alloc n p

/-- Library call `gsl_multifit_fdfsolver_set(s, fdf, x)`. -/
def gsl_multifit_fdfsolver_set {α σ : Type} (T : gsl_multifit_fdfsolver_type α σ)
    (s : gsl_multifit_fdfsolver α σ) (fdf : gsl_multifit_function_fdf) (x : gsl_vector α) :
    gsl_multifit_fdfsolver α σ :=
  T.set s fdf x

/-- Library call `gsl_multifit_fdfsolver_iterate(s)`. -/
def gsl_multifit_fdfsolver_iterate {α σ : Type} (T : gsl_multifit_fdfsolver_type α σ)
    (s : gsl_multifit_fdfsolver α σ) : Int × gsl_multifit_fdfsolver α σ :=
  T.iterate s

/-! ## Solver: set-up, constructor, solve -/

/-- Method `Solver::set`. -/
def Solver.set {α σ : Type} (s : Solver α σ) : Solver α σ :=
  let g := gsl_multifit_proto
  let g := { g with n := s.nPoints }
  let g := { g with p := s.nParams }
  { s with
    gslMultifit := g
    pSolver := gsl_multifit_fdfsolver_set s.type s.pSolver g s.initialParams.self }

/-- Constructor `Solver::Solver()`: ten points, two parameters, `y_i = 5 x_i + 3`. -/
def Solver.new {α σ : Type} [Field α] (lmsder : gsl_multifit_fdfsolver_type α σ) :
    Solver α σ :=
  let nPoints : Nat := 10
  let nParams : Nat := 2
  let initialParams : Vector α := Vector.ofStdVector [0, 0]
  let coords : Vector α := Vector.linspace 1 10 nPoints
  let y : Vector α := Vector.zeros nPoints
  let y : Vector α := ⟨(List.range nPoints).foldl
    (fun data i => data.set i (5 * gsl_vector_get coords.self i + 3)) y.self⟩
  let pSolver := gsl_multifit_fdfsolver_alloc lmsder nPoints nParams
  Solver.set
    { pSolver := pSolver
      type := lmsder
      nPoints := nPoints
      nParams := nParams
      gslMultifit := gsl_multifit_proto
      initialParams := initialParams
      coords := coords
      y := y }

/-- The library calls made by the loop of `Solver::solve`, in order (a ghost trace). -/
inductive Call where
  | iterate : Call
  | test_delta : Call
  deriving DecidableEq, Repr

/-- What the loop of `Solver::solve` leaves behind: the last status, the iteration counter, the
solver state and the trace of library calls. -/
structure LoopResult (P : Type) where
  status : Int
  iter : Nat
  pSolver : P
  calls : List Call

/-- The `do ... while` loop of `Solver::solve`, entered with counter `iter`, over an arbitrary
iteration step and convergence test. The counter stays far below the range of `size_t`. -/
def Solver.solveLoop {P : Type} (iterate : P → Int × P) (test : P → Int) (iter : Nat) (p : P)
    (calls : List Call) : LoopResult P :=
  let iter := iter + 1
  let r := iterate p
  let calls := calls ++ [Call.iterate]
  if r.1 ≠ 0 then ⟨r.1, iter, r.2, calls⟩
  else
    let status := test r.2
    let calls := calls ++ [Call.test_delta]
    if status = GSL_CONTINUE ∧ iter < 500 then Solver.solveLoop iterate test iter r.2 calls
    else ⟨status, iter, r.2, calls⟩
termination_by 500 - iter

/-- The convergence test as `Solver::solve` calls it: on the last step `dx` and the current
estimate `x`, with both tolerances `1e-4`. -/
def Solver.testDelta {α σ : Type} [Zero α] (A : DoubleArith α)
    (p : gsl_multifit_fdfsolver α σ) : Int :=
  gsl_multifit_test_delta A p.dx p.x A.tol A.tol

/-- Method `Solver::solve`, run in the arithmetic `A`: the solver afterwards and the outcome of
the loop. -/
def Solver.solve {α σ : Type} [Zero α] (A : DoubleArith α) (s : Solver α σ) :
    Solver α σ × LoopResult (gsl_multifit_fdfsolver α σ) :=
  let r := Solver.solveLoop (gsl_multifit_fdfsolver_iterate s.type) (Solver.testDelta A) 0
    s.pSolver []
  ({ s with pSolver := r.pSolver }, r)

/-! ## Bytes: `memcpy` and `Solver::setY` -/

/-- The object representation of the element type: `sizeof` bytes per element. -/
structure ObjRep (α : Type) where
  sizeof : Nat
  toBytes : α → List Nat
  ofBytes : List Nat → α

/-- The bytes of an array of elements. -/
def ObjRep.bytes {α : Type} (R : ObjRep α) (v : List α) : List Nat :=
  (v.map R.toBytes).flatten

/-- The elements read back from `length * sizeof` bytes of memory. -/
def ObjRep.elements {α : Type} (R : ObjRep α) (mem : List Nat) (length : Nat) : List α :=
  (List.range length).map (fun i => R.ofBytes ((mem.drop (i * R.sizeof)).take R.sizeof))

/-- Library call `memcpy(dest, src, n)` on byte arrays holding at least `n` bytes each. -/
def memcpy (dest src : List Nat) (n : Nat) : List Nat :=
  src.take n ++ dest.drop n

/-- Method `Solver::setY`: `memcpy(y.self->data, &yVals[0], yVals.size())`. -/
def Solver.setY {α σ : Type} (R : ObjRep α) (s : Solver α σ) (yVals : List α) : Solver α σ :=
  let mem := memcpy (R.bytes s.y.self) (R.bytes yVals) yVals.length
  { s with y := ⟨R.elements mem s.y.self.length⟩ }

/-- A `double` as its 64-bit IEEE-754 pattern. -/
structure Binary64 where
  bits : Nat
  deriving DecidableEq, Repr

/-- The eight bytes of a 64-bit pattern, least significant first. -/
def Binary64.toBytes (w : Binary64) : List Nat :=
  (List.range 8).map (fun k => w.bits / 256 ^ k % 256)

/-- The 64-bit pattern made of bytes, least significant first. -/
def Binary64.ofBytes (bs : List Nat) : Binary64 :=
  ⟨bs.foldr (fun b acc => b + 256 * acc) 0⟩

/-- The little-endian object representation of `double`. -/
def Binary64.rep : ObjRep Binary64 :=
  ⟨8, Binary64.toBytes, Binary64.ofBytes⟩

/-- The rational value of a finite binary64 pattern (zero for infinities and NaNs). -/
def Binary64.toRat (w : Binary64) : ℚ :=
  let sign : ℚ := if w.bits / 2 ^ 63 % 2 = 1 then -1 else 1
  let e : Nat := w.bits / 2 ^ 52 % 2 ^ 11
  let m : Nat := w.bits % 2 ^ 52
  if e = 2047 then 0
  else if e = 0 then sign * (m : ℚ) / (2 : ℚ) ^ 1074
  else sign * (((2 ^ 52 + m : Nat) : ℚ)) * (2 : ℚ) ^ e / (2 : ℚ) ^ 1075

/-- The pattern of `+0.0`. -/
instance : Zero Binary64 :=
  ⟨⟨0⟩⟩

/-- The sign bit. -/
def Binary64.sign (w : Binary64) : Nat :=
  w.bits / 2 ^ 63 % 2

/-- The eleven-bit exponent field. -/
def Binary64.expField (w : Binary64) : Nat :=
  w.bits / 2 ^ 52 % 2 ^ 11

/-- The 52-bit fraction field. -/
def Binary64.frac (w : Binary64) : Nat :=
  w.bits % 2 ^ 52

def Binary64.isNaN (w : Binary64) : Bool :=
  decide (w.expField = 2047 ∧ w.frac ≠ 0)

def Binary64.isInf (w : Binary64) : Bool :=
  decide (w.expField = 2047 ∧ w.frac = 0)

def Binary64.isZero (w : Binary64) : Bool :=
  decide (w.bits % 2 ^ 63 = 0)

/-- The integer significand of a finite pattern: the fraction, with the hidden bit for normal
numbers. -/
def Binary64.mant (w : Binary64) : Nat :=
  if w.expField = 0 then w.frac else 2 ^ 52 + w.frac

/-- The exponent of the unit in the last place: a finite pattern has the magnitude
`mant * 2 ^ expo`. -/
def Binary64.expo (w : Binary64) : Int :=
  ((if w.expField = 0 then 1 else w.expField : Nat) : Int) - 1075

/-- The significand with the sign of the pattern. -/
def Binary64.signedMant (w : Binary64) : Int :=
  if w.sign = 1 then -(w.mant : Int) else (w.mant : Int)

/-- The quiet NaN produced by invalid operations (payloads are not tracked). -/
def Binary64.nan : Binary64 :=
  ⟨0x7FF8000000000000⟩

/-- The floor of the binary logarithm of `K` (for `K ≥ 1`), by halving at most `fuel` times. -/
def floorLog2 : Nat → Nat → Nat
  | 0, _ => 0
  | fuel + 1, K => if K < 2 then 0 else floorLog2 fuel (K / 2) + 1

/-- Round-to-nearest, ties-to-even: the 63 magnitude bits of the binary64 number nearest to
`K * 2 ^ E`, with gradual underflow and overflow to infinity. -/
def Binary64.roundMag (K : Nat) (E : Int) : Nat :=
  if K = 0 then 0
  else
    let e : Int := (floorLog2 K K : Int) + E
    let qe : Int := max e (-1022) - 52
    let m : Nat :=
      if qe ≤ E then K * 2 ^ (E - qe).toNat
      else
        let den := 2 ^ (qe - E).toNat
        let q := K / den
        let r := K % den
        if den < 2 * r ∨ (2 * r = den ∧ q % 2 = 1) then q + 1 else q
    let bits := (qe + 1074).toNat * 2 ^ 52 + m
    if 2047 * 2 ^ 52 ≤ bits then 2047 * 2 ^ 52 else bits

/-- IEEE-754 addition of doubles, rounded to nearest even: NaNs and infinities first, then
zero operands (`x + 0 = x`; a sum of zeros is `-0.0` only when both are), then the exact sum of
the two aligned significands, rounded (an exact zero sum of non-zero operands is `+0.0`). -/
def Binary64.add (a b : Binary64) : Binary64 :=
  if a.isNaN ∨ b.isNaN then Binary64.nan
  else if a.isInf then (if b.isInf ∧ a.sign ≠ b.sign then Binary64.nan else a)
  else if b.isInf then b
  else if a.isZero then
    (if b.isZero then (if a.sign = 1 ∧ b.sign = 1 then ⟨2 ^ 63⟩ else ⟨0⟩) else b)
  else if b.isZero then a
  else
    let E := min a.expo b.expo
    let z : Int :=
      a.signedMant * 2 ^ (a.expo - E).toNat + b.signedMant * 2 ^ (b.expo - E).toNat
    if z = 0 then ⟨0⟩
    else ⟨(if z < 0 then 2 ^ 63 else 0) + Binary64.roundMag z.natAbs E⟩

/-- IEEE-754 multiplication of doubles, rounded to nearest even: the sign is the sum of the signs
modulo two, NaNs and `0 * inf` give a NaN, and finite operands give the exact product of the
significands, rounded. -/
def Binary64.mul (a b : Binary64) : Binary64 :=
  let s := (a.sign + b.sign) % 2
  if a.isNaN ∨ b.isNaN then Binary64.nan
  else if a.isInf ∨ b.isInf then
    (if a.isZero ∨ b.isZero then Binary64.nan else ⟨s * 2 ^ 63 + 2047 * 2 ^ 52⟩)
  else ⟨s * 2 ^ 63 + Binary64.roundMag (a.mant * b.mant) (a.expo + b.expo)⟩

/-- The function `fabs`: the sign bit cleared. -/
def Binary64.fabs (w : Binary64) : Binary64 :=
  ⟨w.bits % 2 ^ 63⟩

/-- The position of a non-NaN pattern in the order of the doubles: the magnitude bits, negated
for negative numbers (so that `-0.0` and `+0.0` coincide). -/
def Binary64.ord (w : Binary64) : Int :=
  if w.sign = 1 then -((w.bits % 2 ^ 63 : Nat) : Int) else ((w.bits % 2 ^ 63 : Nat) : Int)

/-- The comparison `a < b` of doubles (false when either is a NaN). -/
def Binary64.lt (a b : Binary64) : Bool :=
  !a.isNaN && !b.isNaN && decide (a.ord < b.ord)

/-- The comparison `a <= b` of doubles (false when either is a NaN). -/
def Binary64.le (a b : Binary64) : Bool :=
  !a.isNaN && !b.isNaN && decide (a.ord ≤ b.ord)

/-- The arithmetic of the program: binary64, with the literal `1e-4` as the double nearest to
`1/10000`. -/
def Binary64.arith : DoubleArith Binary64 :=
  { tol := ⟨0x3F1A36E2EB1C432D⟩
    add := Binary64.add
    mul := Binary64.mul
    fabs := Binary64.fabs
    lt := Binary64.lt }

/-- A solver type whose entries do nothing, for the byte-level examples. -/
def idleType : gsl_multifit_fdfsolver_type Binary64 Unit :=
  ⟨fun _ _ => ⟨[], [], [], ()⟩, fun s _ _ => s, fun s => (0, s)⟩

/-- The constructed solver as it lies in memory: the patterns of `0, 0`, of `1, ..., 10` and of
`8, 13, ..., 53`. -/
def memSolver : Solver Binary64 Unit :=
  { pSolver := ⟨[], [], [], ()⟩
    type := idleType
    nPoints := 10
    nParams := 2
    gslMultifit := ⟨10, 2⟩
    initialParams := ⟨[⟨0⟩, ⟨0⟩]⟩
    coords := ⟨[⟨0x3FF0000000000000⟩, ⟨0x4000000000000000⟩, ⟨0x4008000000000000⟩,
      ⟨0x4010000000000000⟩, ⟨0x4014000000000000⟩, ⟨0x4018000000000000⟩,
      ⟨0x401C000000000000⟩, ⟨0x4020000000000000⟩, ⟨0x4022000000000000⟩,
      ⟨0x4024000000000000⟩]⟩
    y := ⟨[⟨0x4020000000000000⟩, ⟨0x402A000000000000⟩, ⟨0x4032000000000000⟩,
      ⟨0x4037000000000000⟩, ⟨0x403C000000000000⟩, ⟨0x4040800000000000⟩,
      ⟨0x4043000000000000⟩, ⟨0x4045800000000000⟩, ⟨0x4048000000000000⟩,
      ⟨0x404A800000000000⟩]⟩ }

/-- A concrete solver type over `ℚ` whose private state counts the iterations: the first
iteration succeeds and leaves the step `dx = [1/10000, 0]` at the estimate `x = [0, 0]`, every
later iteration fails with `GSL_ENOPROG` (27). -/
def edgeType : gsl_multifit_fdfsolver_type ℚ Nat :=
  { alloc := fun n p => ⟨List.replicate p 0, List.replicate n 0, List.replicate p 0, 0⟩
    set := fun s _ x => { s with x := x, dx := List.replicate x.length 0 }
    iterate := fun s =>
      (if s.state = 0 then 0 else 27,
        { s with x := [0, 0], dx := [1 / 10000, 0], state := s.state + 1 }) }

/-- The solver the constructor builds over the concrete solver type `edgeType`. -/
def demoSolver : Solver ℚ Nat :=
  Solver.new edgeType

/-- A concrete solver type over binary64 whose private state counts the iterations. Each
successful iteration adds its step to the estimate, `x := x + dx`: the first step is
`[2.49965, 0]` (`0x4003FF487FCB923A`), the second `[0.00035, 0]` (`0x3F36F0068DB8BAC7`); every
later iteration fails with `GSL_ENOPROG` (27) and leaves the estimate alone. -/
def boundaryType : gsl_multifit_fdfsolver_type Binary64 Nat :=
  { alloc := fun n p => ⟨List.replicate p 0, List.replicate n 0, List.replicate p 0, 0⟩
    set := fun s _ x => { s with x := x, dx := List.replicate x.length 0 }
    iterate := fun s =>
      if s.state = 0 then
        (0, { s with
          x := List.zipWith Binary64.add s.x [⟨0x4003FF487FCB923A⟩, 0]
          dx := [⟨0x4003FF487FCB923A⟩, 0]
          state := 1 })
      else if s.state = 1 then
        (0, { s with
          x := List.zipWith Binary64.add s.x [⟨0x3F36F0068DB8BAC7⟩, 0]
          dx := [⟨0x3F36F0068DB8BAC7⟩, 0]
          state := 2 })
      else (27, { s with state := s.state + 1 }) }

/-- The constructed solver in binary64 over `boundaryType`: the data of `memSolver`, the solver
allocated for ten points and two parameters and set up by `Solver::set`. -/
def floatSolver : Solver Binary64 Nat :=
  Solver.set
    { pSolver := gsl_multifit_fdfsolver_alloc boundaryType 10 2
      type := boundaryType
      nPoints := 10
      nParams := 2
      gslMultifit := gsl_multifit_proto
      initialParams := memSolver.initialParams
      coords := memSolver.coords
      y := memSolver.y }

/-- The state of `floatSolver` after its first iteration: `x = dx = [2.49965, 0]`. -/
def floatState1 : gsl_multifit_fdfsolver Binary64 Nat :=
  ⟨[⟨0x4003FF487FCB923A⟩, 0], List.replicate 10 0, [⟨0x4003FF487FCB923A⟩, 0], 1⟩

/-- The state of `floatSolver` after its second iteration: `x = [2.5, 0]`,
`dx = [0.00035, 0]`. -/
def floatState2 : gsl_multifit_fdfsolver Binary64 Nat :=
  ⟨[⟨0x4004000000000000⟩, 0], List.replicate 10 0, [⟨0x3F36F0068DB8BAC7⟩, 0], 2⟩

/-- The state of `floatSolver` after its third, failed iteration. -/
def floatState3 : gsl_multifit_fdfsolver Binary64 Nat :=
  ⟨[⟨0x4004000000000000⟩, 0], List.replicate 10 0, [⟨0x3F36F0068DB8BAC7⟩, 0], 3⟩

/-- A well-formed `10 × 2` matrix with arbitrary prior content. -/
def demoJ : gsl_matrix ℚ :=
  ⟨10, 2, List.replicate 10 [7, -7]⟩

/-- An output buffer of length ten with arbitrary prior content. -/
def demoBuf : gsl_vector ℚ :=
  List.replicate 10 7

/-- A residual evaluation that always fails with `GSL_EDOM` (1) and leaves the buffer alone. -/
def failingResidual (_X : gsl_vector ℚ) (fbuf : gsl_vector ℚ) : Int × gsl_vector ℚ :=
  (1, fbuf)

/-- Ten copies of the pattern of `0.1` (`0x3FB999999999999A`), a `yVals` argument for `setY`. -/
def tenths : List Binary64 :=
  List.replicate 10 ⟨0x3FB999999999999A⟩

/-- The quantities the dimension invariants speak about: `nPoints`, `nParams` and the lengths
of the coordinate, value and parameter vectors. -/
def Solver.dims {α σ : Type} (s : Solver α σ) : Nat × Nat × Nat × Nat × Nat :=
  (s.nPoints, s.nParams, s.coords.self.length, s.y.self.length, s.initialParams.self.length)

/-! ## Ghost definitions for the loop of `solve` (written from the specification) -/

/-- The solver state after `k` iteration steps from `p`. -/
def iterState {P : Type} (iterate : P → Int × P) (p : P) : Nat → P
  | 0 => p
  | k + 1 => (iterate (iterState iterate p k)).2

/-- The status returned by the `k`-th iteration step from `p` (`k ≥ 1`). -/
def iterStatus {P : Type} (iterate : P → Int × P) (p : P) (k : Nat) : Int :=
  (iterate (iterState iterate p (k - 1))).1

/-- The stopping condition as the specification words it: the `k`-th iteration fails, or the
convergence test after it returns something other than `GSL_CONTINUE`, or `k` is the cap. -/
def stopsAt {P : Type} (iterate : P → Int × P) (test : P → Int) (p : P) (k : Nat) : Prop :=
  iterStatus iterate p k ≠ 0 ∨ test (iterState iterate p k) ≠ GSL_CONTINUE ∨ k = 500

instance {P : Type} (iterate : P → Int × P) (test : P → Int) (p : P) (k : Nat) :
    Decidable (stopsAt iterate test p k) := by
  unfold stopsAt
  infer_instance

/-- The trace of a run of `n` iterations: `n - 1` rounds of iterate-then-test, followed by the
last iteration and, when that one succeeded, its test. -/
def expectedCalls (n : Nat) (lastFailed : Bool) : List Call :=
  (List.replicate (n - 1) [Call.iterate, Call.test_delta]).flatten ++
    (if lastFailed then [Call.iterate] else [Call.iterate, Call.test_delta])

/-! ## Residual and Jacobian -/

theorem f_eq {α σ : Type} [Zero α] [Add α] [Sub α] [Mul α] (s : Solver α σ)
    (X fbuf : gsl_vector α) (hc : s.coords.self.length = s.nPoints)
    (hy : s.y.self.length = s.nPoints) (hf : fbuf.length = s.nPoints) :
    s.f X fbuf = (GSL_SUCCESS, List.zipWith (fun p q => p - q)
      ((s.coords.self.map (fun e => e * gsl_vector_get X 1)).map
        (fun e => e + gsl_vector_get X 0)) s.y.self) := by
  simp [Solver.f, gsl_vector_memcpy, gsl_vector_scale, gsl_vector_add_constant, gsl_vector_sub,
    hc, hy, hf]

theorem f_get {α σ : Type} [Zero α] [Add α] [Sub α] [Mul α] (s : Solver α σ)
    (X fbuf : gsl_vector α) (hc : s.coords.self.length = s.nPoints)
    (hy : s.y.self.length = s.nPoints) (hf : fbuf.length = s.nPoints) (i : Nat)
    (hi : i < s.nPoints) :
    gsl_vector_get (s.f X fbuf).2 i =
      gsl_vector_get s.coords.self i * gsl_vector_get X 1 + gsl_vector_get X 0 -
        gsl_vector_get s.y.self i := by
  rw [f_eq s X fbuf hc hy hf]
  have h1 : i < s.coords.self.length := by omega
  have h2 : i < s.y.self.length := by omega
  simp [gsl_vector_get, List.getD_eq_getElem?_getD, List.getElem?_zipWith, List.getElem?_map,
    List.getElem?_eq_getElem, h1, h2]

theorem df_eq {α σ : Type} [One α] (s : Solver α σ) (X : gsl_vector α) (J : gsl_matrix α)
    (hc : s.coords.self.length = s.nPoints) (h1 : J.size1 = s.nPoints) (h2 : J.size2 = 2) :
    s.df X J = (GSL_SUCCESS, { J with rows := (List.zipWith (fun r e => r.set 1 e)
      (J.rows.map (fun r => r.map (fun _ => (1 : α)))) s.coords.self) }) := by
  simp [Solver.df, gsl_matrix_set_all, gsl_matrix_set_col, hc, h1, h2]

theorem df_get {α σ : Type} [Zero α] [One α] (s : Solver α σ) (X : gsl_vector α)
    (J : gsl_matrix α) (hc : s.coords.self.length = s.nPoints) (hJ : J.WF)
    (h1 : J.size1 = s.nPoints) (h2 : J.size2 = 2) (i : Nat) (hi : i < s.nPoints) :
    gsl_matrix_get (s.df X J).2 i 0 = 1 ∧
      gsl_matrix_get (s.df X J).2 i 1 = gsl_vector_get s.coords.self i := by
  rw [df_eq s X J hc h1 h2]
  obtain ⟨hr, hrow⟩ := hJ
  have hi1 : i < J.rows.length := by omega
  have hi2 : i < s.coords.self.length := by omega
  have hlen : (J.rows[i]).length = 2 := by
    rw [hrow _ (List.getElem_mem hi1), h2]
  simp [gsl_matrix_get, gsl_vector_get, List.getD_eq_getElem?_getD, List.getElem?_zipWith,
    List.getElem?_map, List.getElem?_eq_getElem, hi1, hi2, List.getElem?_set, hlen]

theorem df_WF {α σ : Type} [One α] (s : Solver α σ) (X : gsl_vector α)
    (J : gsl_matrix α) (hc : s.coords.self.length = s.nPoints) (hJ : J.WF)
    (h1 : J.size1 = s.nPoints) (h2 : J.size2 = 2) :
    (s.df X J).2.WF ∧ (s.df X J).2.size1 = s.nPoints ∧ (s.df X J).2.size2 = 2 := by
  rw [df_eq s X J hc h1 h2]
  obtain ⟨hr, hrow⟩ := hJ
  refine ⟨⟨?_, ?_⟩, h1, h2⟩
  · simp [hr, h1, hc]
  · intro r hr'
    simp only [List.mem_iff_getElem] at hr'
    obtain ⟨n, hn, rfl⟩ := hr'
    simp only [List.length_zipWith, List.length_map] at hn
    have hn1 : n < J.rows.length := by omega
    simp [hrow _ (List.getElem_mem hn1)]

/-- C1: for every parameter vector `X = [b, a]` and every prior content of the output buffer of
length `nPoints`, `Solver::f` returns `GSL_SUCCESS` and leaves a residual vector of length
`nPoints` whose `i`-th entry is `a * coords_i + b - y_i`. Only commutativity of the
multiplication is used, so the statement holds in exact arithmetic in particular. -/
theorem Solver_f_residual {α σ : Type} [Zero α] [Add α] [Sub α] [CommMagma α]
    (s : Solver α σ) (b a : α) (fbuf : gsl_vector α)
    (hc : s.coords.self.length = s.nPoints) (hy : s.y.self.length = s.nPoints)
    (hf : fbuf.length = s.nPoints) :
    (s.f [b, a] fbuf).1 = GSL_SUCCESS ∧ (s.f [b, a] fbuf).2.length = s.nPoints ∧
      ∀ i, i < s.nPoints →
        gsl_vector_get (s.f [b, a] fbuf).2 i =
          a * gsl_vector_get s.coords.self i + b - gsl_vector_get s.y.self i := by
  refine ⟨?_, ?_, ?_⟩
  · rw [f_eq s _ fbuf hc hy hf]
  · rw [f_eq s _ fbuf hc hy hf]
    simp [hc, hy]
  · intro i hi
    rw [f_get s _ fbuf hc hy hf i hi, mul_comm]
    simp [gsl_vector_get]

/-- C2: for every parameter vector and every prior content of the `nPoints × 2` output matrix,
`Solver::df` returns `GSL_SUCCESS` and leaves a well-formed `nPoints × 2` matrix with
`J[i][0] = 1` and `J[i][1] = coords_i`; the matrix written does not depend on the parameters. -/
theorem Solver_df_jacobian {α σ : Type} [Zero α] [One α] (s : Solver α σ)
    (X : gsl_vector α) (J : gsl_matrix α)
    (hc : s.coords.self.length = s.nPoints) (hJ : J.WF)
    (h1 : J.size1 = s.nPoints) (h2 : J.size2 = 2) :
    (s.df X J).1 = GSL_SUCCESS ∧
      ((s.df X J).2.WF ∧ (s.df X J).2.size1 = s.nPoints ∧ (s.df X J).2.size2 = 2) ∧
      (∀ i, i < s.nPoints →
        gsl_matrix_get (s.df X J).2 i 0 = 1 ∧
          gsl_matrix_get (s.df X J).2 i 1 = gsl_vector_get s.coords.self i) ∧
      ∀ X' : gsl_vector α, s.df X' J = s.df X J := by
  refine ⟨?_, df_WF s X J hc hJ h1 h2, fun i hi => df_get s X J hc hJ h1 h2 i hi, ?_⟩
  · rw [df_eq s X J hc h1 h2]
  · intro X'
    rfl

/-- C3: over exact arithmetic the matrix written by `Solver::df` is the Jacobian of the
residual written by `Solver::f`: for parameters `[b, a]` and a displacement `[d0, d1]`,
`f([b, a] + [d0, d1])_i = f([b, a])_i + J[i][0] * d0 + J[i][1] * d1` for every `i < nPoints`,
where `J` is the output of `df` at `[b, a]`. -/
theorem Solver_df_is_jacobian_of_f {α σ : Type} [CommRing α] (s : Solver α σ)
    (b a d0 d1 : α) (fbuf fbuf' : gsl_vector α) (J : gsl_matrix α)
    (hc : s.coords.self.length = s.nPoints) (hy : s.y.self.length = s.nPoints)
    (hf : fbuf.length = s.nPoints) (hf' : fbuf'.length = s.nPoints) (hJ : J.WF)
    (h1 : J.size1 = s.nPoints) (h2 : J.size2 = 2) :
    ∀ i, i < s.nPoints →
      gsl_vector_get (s.f [b + d0, a + d1] fbuf').2 i =
        gsl_vector_get (s.f [b, a] fbuf).2 i + gsl_matrix_get (s.df [b, a] J).2 i 0 * d0 +
          gsl_matrix_get (s.df [b, a] J).2 i 1 * d1 := by
  intro i hi
  obtain ⟨e0, e1⟩ := df_get s [b, a] J hc hJ h1 h2 i hi
  rw [f_get s _ fbuf' hc hy hf' i hi, f_get s _ fbuf hc hy hf i hi, e0, e1]
  simp only [gsl_vector_get, List.getD_cons_zero, List.getD_cons_succ]
  ring

/-! ## The constructed solver -/

theorem new_dims {σ : Type} (T : gsl_multifit_fdfsolver_type ℚ σ) :
    (Solver.new T).nPoints = 10 ∧ (Solver.new T).nParams = 2 ∧
      (Solver.new T).initialParams.self = [0, 0] := by
  simp [Solver.new, Solver.set, Vector.ofStdVector]

theorem new_coords {σ : Type} (T : gsl_multifit_fdfsolver_type ℚ σ) :
    (Solver.new T).coords.self = [1, 2, 3, 4, 5, 6, 7, 8, 9, 10] := by
  simp [Solver.new, Solver.set, Vector.linspace, List.range, List.range.loop]
  norm_num

theorem new_y {σ : Type} (T : gsl_multifit_fdfsolver_type ℚ σ) :
    (Solver.new T).y.self = [8, 13, 18, 23, 28, 33, 38, 43, 48, 53] := by
  simp [Solver.new, Solver.set, Vector.linspace, Vector.zeros, gsl_vector_get, List.range,
    List.range.loop, List.replicate]
  norm_num

theorem demo_inv :
    demoSolver.coords.self.length = demoSolver.nPoints ∧
      demoSolver.y.self.length = demoSolver.nPoints ∧
      demoBuf.length = demoSolver.nPoints ∧
      demoJ.WF ∧ demoJ.size1 = demoSolver.nPoints ∧ demoJ.size2 = 2 := by
  refine ⟨?_, ?_, ?_, ⟨?_, ?_⟩, ?_, ?_⟩
  · simp [demoSolver, new_coords, new_dims]
  · simp [demoSolver, new_y, new_dims]
  · simp [demoSolver, demoBuf, new_dims]
  · simp [demoJ]
  · intro r hr
    simp only [demoJ, List.mem_replicate] at hr
    simp [hr.2, demoJ]
  · simp [demoSolver, demoJ, new_dims]
  · simp [demoJ]

/-- Witness for C1: the constructed solver, `X = [3, 5]`, a buffer of ten sevens. -/
theorem Solver_f_residual_witness :
    (demoSolver.coords.self.length = demoSolver.nPoints ∧
      demoSolver.y.self.length = demoSolver.nPoints ∧
      demoBuf.length = demoSolver.nPoints) ∧
    ((demoSolver.f [3, 5] demoBuf).1 = GSL_SUCCESS ∧
      (demoSolver.f [3, 5] demoBuf).2.length = demoSolver.nPoints ∧
      ∀ i, i < demoSolver.nPoints →
        gsl_vector_get (demoSolver.f [3, 5] demoBuf).2 i =
          5 * gsl_vector_get demoSolver.coords.self i + 3 -
            gsl_vector_get demoSolver.y.self i) :=
  ⟨⟨demo_inv.1, demo_inv.2.1, demo_inv.2.2.1⟩,
    Solver_f_residual demoSolver 3 5 demoBuf demo_inv.1 demo_inv.2.1 demo_inv.2.2.1⟩

/-- Witness for C2: the constructed solver and a `10 × 2` matrix with prior content. -/
theorem Solver_df_jacobian_witness :
    (demoSolver.coords.self.length = demoSolver.nPoints ∧ demoJ.WF ∧
      demoJ.size1 = demoSolver.nPoints ∧ demoJ.size2 = 2) ∧
    ((demoSolver.df [3, 5] demoJ).1 = GSL_SUCCESS ∧
      ((demoSolver.df [3, 5] demoJ).2.WF ∧
        (demoSolver.df [3, 5] demoJ).2.size1 = demoSolver.nPoints ∧
        (demoSolver.df [3, 5] demoJ).2.size2 = 2) ∧
      (∀ i, i < demoSolver.nPoints →
        gsl_matrix_get (demoSolver.df [3, 5] demoJ).2 i 0 = 1 ∧
          gsl_matrix_get (demoSolver.df [3, 5] demoJ).2 i 1 =
            gsl_vector_get demoSolver.coords.self i) ∧
      ∀ X' : gsl_vector ℚ, demoSolver.df X' demoJ = demoSolver.df [3, 5] demoJ) :=
  ⟨⟨demo_inv.1, demo_inv.2.2.2.1, demo_inv.2.2.2.2.1, demo_inv.2.2.2.2.2⟩,
    Solver_df_jacobian demoSolver [3, 5] demoJ demo_inv.1 demo_inv.2.2.2.1
      demo_inv.2.2.2.2.1 demo_inv.2.2.2.2.2⟩

/-- Witness for C3: the constructed solver at `[3, 5]` with displacement `[1, -2]`. -/
theorem Solver_df_is_jacobian_of_f_witness :
    (demoSolver.coords.self.length = demoSolver.nPoints ∧
      demoSolver.y.self.length = demoSolver.nPoints ∧
      demoBuf.length = demoSolver.nPoints ∧ demoJ.WF ∧
      demoJ.size1 = demoSolver.nPoints ∧ demoJ.size2 = 2) ∧
    ∀ i, i < demoSolver.nPoints →
      gsl_vector_get (demoSolver.f [3 + 1, 5 + -2] demoBuf).2 i =
        gsl_vector_get (demoSolver.f [3, 5] demoBuf).2 i +
          gsl_matrix_get (demoSolver.df [3, 5] demoJ).2 i 0 * 1 +
          gsl_matrix_get (demoSolver.df [3, 5] demoJ).2 i 1 * -2 :=
  ⟨demo_inv,
    Solver_df_is_jacobian_of_f demoSolver 3 5 1 (-2) demoBuf demoBuf demoJ demo_inv.1
      demo_inv.2.1 demo_inv.2.2.1 demo_inv.2.2.1 demo_inv.2.2.2.1 demo_inv.2.2.2.2.1
      demo_inv.2.2.2.2.2⟩

theorem new_f_eq {σ : Type} (T : gsl_multifit_fdfsolver_type ℚ σ) (b a : ℚ)
    (fbuf : gsl_vector ℚ) (hf : fbuf.length = 10) :
    ((Solver.new T).f [b, a] fbuf).2 =
      [1 * a + b - 8, 2 * a + b - 13, 3 * a + b - 18, 4 * a + b - 23, 5 * a + b - 28,
        6 * a + b - 33, 7 * a + b - 38, 8 * a + b - 43, 9 * a + b - 48, 10 * a + b - 53] := by
  rw [f_eq _ _ fbuf (by simp [new_coords, new_dims]) (by simp [new_y, new_dims])
    (by simp [new_dims, hf])]
  simp [new_coords, new_y, gsl_vector_get]

/-- C10: over exact arithmetic the constructor's observation set is `coords_i = i + 1` (the
linspace `Vector(1, 10, 10)`) and `y_i = 5 * coords_i + 3`; for that data the residual
`Solver::f([b, a])` is the zero vector if and only if `[b, a] = [3, 5]`, and likewise the sum of
squared residuals vanishes if and only if `[b, a] = [3, 5]`. -/
theorem constructed_data_unique_zero {σ : Type} (T : gsl_multifit_fdfsolver_type ℚ σ) :
    (Solver.new T).coords.self = (Vector.linspace 1 10 10).self ∧
    (Solver.new T).coords.self.length = 10 ∧ (Solver.new T).y.self.length = 10 ∧
    (∀ i, i < 10 →
      gsl_vector_get (Solver.new T).coords.self i = (i : ℚ) + 1 ∧
        gsl_vector_get (Solver.new T).y.self i =
          5 * gsl_vector_get (Solver.new T).coords.self i + 3) ∧
    ∀ (b a : ℚ) (fbuf : gsl_vector ℚ), fbuf.length = 10 →
      ((((Solver.new T).f [b, a] fbuf).2 = List.replicate 10 0 ↔ [b, a] = [3, 5]) ∧
        (((((Solver.new T).f [b, a] fbuf).2.map (fun r => r ^ 2)).sum = 0) ↔
          [b, a] = [3, 5])) := by
  refine ⟨?_, ?_, ?_, ?_, ?_⟩
  · simp [Solver.new, Solver.set]
  · simp [new_coords]
  · simp [new_y]
  · intro i hi
    rw [new_coords, new_y]
    interval_cases i <;> simp [gsl_vector_get] <;> norm_num
  · intro b a fbuf hf
    rw [new_f_eq T b a fbuf hf]
    constructor
    · constructor
      · intro h
        simp only [List.replicate, List.cons.injEq] at h
        obtain ⟨h0, h1, -⟩ := h
        have ha : a = 5 := by linarith
        have hb : b = 3 := by linarith
        rw [ha, hb]
      · intro h
        simp only [List.cons.injEq, and_true] at h
        obtain ⟨hb, ha⟩ := h
        subst hb ha
        simp [List.replicate]
        norm_num
    · constructor
      · intro h
        simp only [List.map_cons, List.map_nil, List.sum_cons, List.sum_nil] at h
        have h0 : (1 * a + b - 8) ^ 2 = 0 := by
          nlinarith [sq_nonneg (1 * a + b - 8), sq_nonneg (2 * a + b - 13),
            sq_nonneg (3 * a + b - 18), sq_nonneg (4 * a + b - 23), sq_nonneg (5 * a + b - 28),
            sq_nonneg (6 * a + b - 33), sq_nonneg (7 * a + b - 38), sq_nonneg (8 * a + b - 43),
            sq_nonneg (9 * a + b - 48), sq_nonneg (10 * a + b - 53)]
        have h1 : (2 * a + b - 13) ^ 2 = 0 := by
          nlinarith [sq_nonneg (1 * a + b - 8), sq_nonneg (2 * a + b - 13),
            sq_nonneg (3 * a + b - 18), sq_nonneg (4 * a + b - 23), sq_nonneg (5 * a + b - 28),
            sq_nonneg (6 * a + b - 33), sq_nonneg (7 * a + b - 38), sq_nonneg (8 * a + b - 43),
            sq_nonneg (9 * a + b - 48), sq_nonneg (10 * a + b - 53)]
        have e0 : 1 * a + b - 8 = 0 := pow_eq_zero_iff (two_ne_zero) |>.mp h0
        have e1 : 2 * a + b - 13 = 0 := pow_eq_zero_iff (two_ne_zero) |>.mp h1
        have ha : a = 5 := by linarith
        have hb : b = 3 := by linarith
        rw [ha, hb]
      · intro h
        simp only [List.cons.injEq, and_true] at h
        obtain ⟨hb, ha⟩ := h
        subst hb ha
        norm_num

/-- Witness for C10: the constructed solver over `edgeType` with a buffer of ten sevens. -/
theorem constructed_data_unique_zero_witness :
    demoBuf.length = 10 ∧
      (((Solver.new edgeType).f [3, 5] demoBuf).2 = List.replicate 10 0 ↔
        [(3 : ℚ), 5] = [3, 5]) :=
  ⟨by simp [demoBuf],
    ((constructed_data_unique_zero edgeType).2.2.2.2 3 5 demoBuf (by simp [demoBuf])).1⟩

/-! ## The combined callback -/

/-- C4: `gsl_fdf` writes the residual vector `gsl_f` writes and the matrix `gsl_df` writes and
returns success exactly when both do; and, for any residual and Jacobian evaluations run through
the control flow of `gsl_fdf`, a residual status other than `GSL_SUCCESS` is returned as it is,
with the matrix left unchanged (the Jacobian is not evaluated), while after a successful
residual the status and the matrix are those of the Jacobian evaluation. -/
theorem gsl_fdf_equiv {α σ : Type} [Zero α] [One α] [Add α] [Sub α] [Mul α] :
    (∀ (s : Solver α σ) (X fbuf : gsl_vector α) (J : gsl_matrix α),
      gsl_fdf X s fbuf J = ((gsl_df X s J).1, (gsl_f X s fbuf).2, (gsl_df X s J).2) ∧
      ((gsl_fdf X s fbuf J).1 = GSL_SUCCESS ↔
        (gsl_f X s fbuf).1 = GSL_SUCCESS ∧ (gsl_df X s J).1 = GSL_SUCCESS)) ∧
    (∀ (f : gsl_vector α → gsl_vector α → Int × gsl_vector α)
        (df : gsl_vector α → gsl_matrix α → Int × gsl_matrix α)
        (X fbuf : gsl_vector α) (J : gsl_matrix α),
      ((f X fbuf).1 ≠ GSL_SUCCESS → fdfOf f df X fbuf J = ((f X fbuf).1, (f X fbuf).2, J)) ∧
      ((f X fbuf).1 = GSL_SUCCESS →
        fdfOf f df X fbuf J = ((df X J).1, (f X fbuf).2, (df X J).2)) ∧
      ((fdfOf f df X fbuf J).1 = GSL_SUCCESS ↔
        (f X fbuf).1 = GSL_SUCCESS ∧ (df X J).1 = GSL_SUCCESS)) := by
  constructor
  · intro s X fbuf J
    simp [gsl_fdf, gsl_f, gsl_df, fdfOf, Solver.f, Solver.df]
  · intro f df X fbuf J
    refine ⟨?_, ?_, ?_⟩
    · intro h
      simp [fdfOf, h]
    · intro h
      simp [fdfOf, h]
    · by_cases h : (f X fbuf).1 = GSL_SUCCESS
      · simp [fdfOf, h]
      · simp [fdfOf, h]

/-- Witness for C4: a residual evaluation failing with `GSL_EDOM` in front of `Solver::df`. -/
theorem gsl_fdf_equiv_witness :
    (failingResidual [3, 5] demoBuf).1 ≠ GSL_SUCCESS ∧
      fdfOf failingResidual demoSolver.df [3, 5] demoBuf demoJ = (1, demoBuf, demoJ) :=
  ⟨by simp [failingResidual],
    ((gsl_fdf_equiv (α := ℚ) (σ := Nat)).2 failingResidual demoSolver.df [3, 5] demoBuf
      demoJ).1 (by simp [failingResidual])⟩

/-! ## The loop of `solve` -/

theorem solveLoop_unfold {P : Type} (iterate : P → Int × P) (test : P → Int) (i : Nat) (p : P)
    (l : List Call) :
    Solver.solveLoop iterate test i p l =
      if (iterate p).1 ≠ 0 then ⟨(iterate p).1, i + 1, (iterate p).2, l ++ [Call.iterate]⟩
      else if test (iterate p).2 = GSL_CONTINUE ∧ i + 1 < 500 then
        Solver.solveLoop iterate test (i + 1) (iterate p).2
          (l ++ [Call.iterate] ++ [Call.test_delta])
      else ⟨test (iterate p).2, i + 1, (iterate p).2,
        l ++ [Call.iterate] ++ [Call.test_delta]⟩ := by
  rw [Solver.solveLoop]

theorem iterState_shift {P : Type} (iterate : P → Int × P) (p : P) (k : Nat) :
    iterState iterate p (k + 1) = iterState iterate (iterate p).2 k := by
  induction k with
  | zero => rfl
  | succ k ih =>
    show (iterate (iterState iterate p (k + 1))).2 = (iterate (iterState iterate (iterate p).2 k)).2
    rw [ih]

theorem iterStatus_shift {P : Type} (iterate : P → Int × P) (p : P) (k : Nat) (hk : 1 ≤ k) :
    iterStatus iterate p (k + 1) = iterStatus iterate (iterate p).2 k := by
  obtain ⟨j, rfl⟩ : ∃ j, k = j + 1 := ⟨k - 1, by omega⟩
  simp only [iterStatus, Nat.add_sub_cancel]
  rw [iterState_shift]

theorem expectedCalls_one (b : Bool) :
    expectedCalls 1 b = if b then [Call.iterate] else [Call.iterate, Call.test_delta] := by
  simp [expectedCalls]

theorem expectedCalls_succ (m : Nat) (hm : 1 ≤ m) (b : Bool) :
    expectedCalls (m + 1) b = [Call.iterate, Call.test_delta] ++ expectedCalls m b := by
  obtain ⟨j, rfl⟩ : ∃ j, m = j + 1 := ⟨m - 1, by omega⟩
  simp [expectedCalls, List.replicate_succ]

theorem solveLoop_spec {P : Type} (iterate : P → Int × P) (test : P → Int) :
    ∀ (n i : Nat) (p : P) (l : List Call), i < 500 → 500 - i ≤ n →
      ∃ m, 1 ≤ m ∧ i + m ≤ 500 ∧
        (Solver.solveLoop iterate test i p l).iter = i + m ∧
        (iterStatus iterate p m ≠ 0 ∨ test (iterState iterate p m) ≠ GSL_CONTINUE ∨
          i + m = 500) ∧
        (∀ k, 1 ≤ k → k < m →
          iterStatus iterate p k = 0 ∧ test (iterState iterate p k) = GSL_CONTINUE) ∧
        (Solver.solveLoop iterate test i p l).pSolver = iterState iterate p m ∧
        (Solver.solveLoop iterate test i p l).status =
          (if iterStatus iterate p m ≠ 0 then iterStatus iterate p m
            else test (iterState iterate p m)) ∧
        (Solver.solveLoop iterate test i p l).calls =
          l ++ expectedCalls m (decide (iterStatus iterate p m ≠ 0)) := by
  intro n
  induction n with
  | zero =>
    intro i p l hi hn
    omega
  | succ n ih =>
    intro i p l hi hn
    rw [solveLoop_unfold]
    have hst1 : iterStatus iterate p 1 = (iterate p).1 := rfl
    have hs1 : iterState iterate p 1 = (iterate p).2 := rfl
    by_cases h0 : (iterate p).1 ≠ 0
    · rw [if_pos h0]
      refine ⟨1, le_refl 1, by omega, rfl, Or.inl (by rw [hst1]; exact h0), ?_, ?_, ?_, ?_⟩
      · intro k hk1 hk2
        omega
      · rw [hs1]
      · rw [hst1, if_pos h0]
      · rw [hst1, expectedCalls_one]
        simp [h0]
    · rw [if_neg h0]
      have h0' : (iterate p).1 = 0 := not_not.mp h0
      by_cases hc : test (iterate p).2 = GSL_CONTINUE ∧ i + 1 < 500
      · rw [if_pos hc]
        obtain ⟨m, hm1, hm2, hiter, hstop, hmin, hps, hstat, hcalls⟩ :=
          ih (i + 1) (iterate p).2 (l ++ [Call.iterate] ++ [Call.test_delta]) hc.2 (by omega)
        refine ⟨m + 1, by omega, by omega, ?_, ?_, ?_, ?_, ?_, ?_⟩
        · rw [hiter]
          omega
        · rw [iterStatus_shift iterate p m hm1, iterState_shift]
          rcases hstop with h | h | h
          · exact Or.inl h
          · exact Or.inr (Or.inl h)
          · exact Or.inr (Or.inr (by omega))
        · intro k hk1 hk2
          by_cases hk : k = 1
          · subst hk
            rw [hst1, hs1]
            exact ⟨h0', hc.1⟩
          · obtain ⟨j, rfl⟩ : ∃ j, k = j + 1 := ⟨k - 1, by omega⟩
            rw [iterStatus_shift iterate p j (by omega), iterState_shift]
            exact hmin j (by omega) (by omega)
        · rw [hps, iterState_shift]
        · rw [hstat, iterStatus_shift iterate p m hm1, iterState_shift]
        · rw [hcalls, iterStatus_shift iterate p m hm1, expectedCalls_succ m hm1]
          simp
      · rw [if_neg hc]
        refine ⟨1, le_refl 1, by omega, rfl, ?_, ?_, ?_, ?_, ?_⟩
        · rw [hs1]
          by_cases ht : test (iterate p).2 = GSL_CONTINUE
          · exact Or.inr (Or.inr (by
              have : ¬ (i + 1 < 500) := fun h => hc ⟨ht, h⟩
              omega))
          · exact Or.inr (Or.inl ht)
        · intro k hk1 hk2
          omega
        · rw [hs1]
        · rw [hst1, if_neg h0, hs1]
        · rw [hst1, expectedCalls_one]
          simp [h0']

theorem expectedCalls_count (m : Nat) (hm : 1 ≤ m) (b : Bool) :
    (expectedCalls m b).count Call.iterate = m ∧
      (expectedCalls m b).count Call.test_delta = (if b then m - 1 else m) := by
  induction m with
  | zero => omega
  | succ j ih =>
    by_cases hj : j = 0
    · subst hj
      rw [expectedCalls_one]
      cases b <;> simp
    · have hj1 : 1 ≤ j := by omega
      obtain ⟨h1, h2⟩ := ih hj1
      rw [expectedCalls_succ j hj1, List.count_append, List.count_append, h1, h2]
      cases b
      · simp
        omega
      · simp
        omega

theorem expectedCalls_last_failed (m : Nat) :
    (expectedCalls m true).getLast? = some Call.iterate := by
  simp [expectedCalls]

/-- C5: for every behaviour of the iteration step and of the convergence test, the loop of
`Solver::solve` terminates having called the iteration step exactly `N` times, where `N` is the
smallest `k ≥ 1` at which the `k`-th iteration returns a non-zero status, or the convergence test
after it returns something other than `GSL_CONTINUE`, or `k = 500`; so `N ≤ 500`. The calls are
`N - 1` rounds of iterate-then-test followed by the last iteration and, only when that one
succeeded, its test: a failed iteration is the last call of the run and its status is the
result. `Solver::solve` is this loop entered with counter `0`, in whatever arithmetic the convergence
test is computed. -/
theorem solve_iteration_count {α σ P : Type} [Zero α] :
    (∀ (iterate : P → Int × P) (test : P → Int) (p : P),
      ∃ N, 1 ≤ N ∧ N ≤ 500 ∧ stopsAt iterate test p N ∧
        (∀ k, 1 ≤ k → k < N → ¬ stopsAt iterate test p k) ∧
        (Solver.solveLoop iterate test 0 p []).iter = N ∧
        (Solver.solveLoop iterate test 0 p []).calls.count Call.iterate = N ∧
        (Solver.solveLoop iterate test 0 p []).calls =
          expectedCalls N (decide (iterStatus iterate p N ≠ 0)) ∧
        (Solver.solveLoop iterate test 0 p []).pSolver = iterState iterate p N ∧
        (iterStatus iterate p N ≠ 0 →
          (Solver.solveLoop iterate test 0 p []).status = iterStatus iterate p N ∧
          (Solver.solveLoop iterate test 0 p []).calls.getLast? = some Call.iterate ∧
          (Solver.solveLoop iterate test 0 p []).calls.count Call.test_delta = N - 1)) ∧
    (∀ (A : DoubleArith α) (s : Solver α σ),
      (s.solve A).2 = Solver.solveLoop (gsl_multifit_fdfsolver_iterate s.type)
        (Solver.testDelta A) 0 s.pSolver [] ∧
      (s.solve A).1.pSolver = (s.solve A).2.pSolver) := by
  constructor
  · intro iterate test p
    obtain ⟨m, hm1, hm2, hiter, hstop, hmin, hps, hstat, hcalls⟩ :=
      solveLoop_spec iterate test 500 0 p [] (by omega) (by omega)
    rw [List.nil_append] at hcalls
    refine ⟨m, hm1, by omega, ?_, ?_, by omega, ?_, hcalls, hps, ?_⟩
    · rcases hstop with h | h | h
      · exact Or.inl h
      · exact Or.inr (Or.inl h)
      · exact Or.inr (Or.inr (by omega))
    · intro k hk1 hk2 hk
      obtain ⟨e1, e2⟩ := hmin k hk1 hk2
      rcases hk with h | h | h
      · exact h e1
      · exact h e2
      · omega
    · rw [hcalls]
      exact (expectedCalls_count m hm1 _).1
    · intro hfail
      refine ⟨?_, ?_, ?_⟩
      · rw [hstat, if_pos hfail]
      · rw [hcalls, decide_eq_true hfail]
        exact expectedCalls_last_failed m
      · rw [hcalls, decide_eq_true hfail, (expectedCalls_count m hm1 true).2]
        simp
  · intro A s
    exact ⟨rfl, rfl⟩

/-! ## The convergence test -/

theorem demo_pSolver :
    demoSolver.pSolver = ⟨[0, 0], List.replicate 10 0, [0, 0], 0⟩ := by
  simp [demoSolver, Solver.new, Solver.set, gsl_multifit_fdfsolver_set,
    gsl_multifit_fdfsolver_alloc, edgeType, Vector.ofStdVector]

theorem demo_type : demoSolver.type = edgeType := by
  simp [demoSolver, Solver.new, Solver.set]

theorem test_delta_eq {α : Type} [Zero α] (A : DoubleArith α) (dx x : gsl_vector α)
    (epsabs epsrel : α) (hr : A.lt epsrel 0 = false) :
    gsl_multifit_test_delta A dx x epsabs epsrel =
      if ∀ j, j < x.length →
          A.lt (A.fabs (gsl_vector_get dx j))
            (A.add epsabs (A.mul epsrel (A.fabs (gsl_vector_get x j)))) = true
        then GSL_SUCCESS else GSL_CONTINUE := by
  unfold gsl_multifit_test_delta
  rw [hr]
  simp only [List.all_eq_true, List.mem_range, Bool.false_eq_true, if_false]

theorem testDelta_ne_continue_iff {α σ : Type} [Zero α] (A : DoubleArith α)
    (hr : A.lt A.tol 0 = false) (p : gsl_multifit_fdfsolver α σ) :
    (Solver.testDelta A p ≠ GSL_CONTINUE ↔
      ∀ j, j < p.x.length →
        A.lt (A.fabs (gsl_vector_get p.dx j))
          (A.add A.tol (A.mul A.tol (A.fabs (gsl_vector_get p.x j)))) = true) ∧
    (Solver.testDelta A p = GSL_SUCCESS ↔ Solver.testDelta A p ≠ GSL_CONTINUE) := by
  unfold Solver.testDelta
  rw [test_delta_eq A p.dx p.x _ _ hr]
  by_cases h : ∀ j, j < p.x.length →
      A.lt (A.fabs (gsl_vector_get p.dx j))
        (A.add A.tol (A.mul A.tol (A.fabs (gsl_vector_get p.x j)))) = true
  · rw [if_pos h]
    exact ⟨⟨fun _ => h, fun _ => by decide⟩, ⟨fun _ => by decide, fun _ => rfl⟩⟩
  · rw [if_neg h]
    exact ⟨⟨fun hh => absurd rfl hh, fun hp => absurd hp h⟩,
      ⟨fun hh => absurd hh (by decide), fun hh => absurd rfl hh⟩⟩

theorem exact_tol_not_neg {α : Type} [LinearOrderedField α] :
    (DoubleArith.exact (α := α)).lt (DoubleArith.exact (α := α)).tol 0 = false := by
  simp only [DoubleArith.exact, decide_eq_false_iff_not, not_lt]
  positivity

theorem demo_test_first :
    Solver.testDelta (α := ℚ) (σ := Nat) DoubleArith.exact
      ⟨[0, 0], List.replicate 10 0, [1 / 10000, 0], 1⟩ = GSL_CONTINUE := by
  by_contra hne
  have h := (testDelta_ne_continue_iff (α := ℚ) (σ := Nat) DoubleArith.exact
    exact_tol_not_neg ⟨[0, 0], List.replicate 10 0, [1 / 10000, 0], 1⟩).1.mp hne 0 (by simp)
  simp only [DoubleArith.exact, gsl_vector_get, List.getD_cons_zero, abs_zero, mul_zero,
    add_zero, decide_eq_true_eq] at h
  rw [abs_of_pos (by norm_num)] at h
  exact lt_irrefl _ h

theorem demo_solve_eval :
    (demoSolver.solve DoubleArith.exact).2 =
      ⟨27, 2, ⟨[0, 0], List.replicate 10 0, [1 / 10000, 0], 2⟩,
        [Call.iterate, Call.test_delta, Call.iterate]⟩ := by
  have ht := demo_test_first
  simp only [Solver.solve, demo_pSolver, demo_type]
  rw [solveLoop_unfold]
  simp only [gsl_multifit_fdfsolver_iterate, edgeType]
  simp only [if_true, ne_eq, not_true_eq_false, if_false, zero_add, ht, true_and]
  rw [if_pos (by norm_num)]
  rw [solveLoop_unfold]
  simp [gsl_multifit_fdfsolver_iterate]

/-- Witness for C5: over `edgeType` the second iteration of the constructed solver fails, so
the run is iterate, test, iterate: two iterations and one convergence test. -/
theorem solve_iteration_count_witness :
    iterStatus (gsl_multifit_fdfsolver_iterate demoSolver.type) demoSolver.pSolver 2 ≠ 0 ∧
      (Solver.solveLoop (gsl_multifit_fdfsolver_iterate demoSolver.type)
        (Solver.testDelta DoubleArith.exact) 0 demoSolver.pSolver []).calls.count
          Call.iterate = 2 ∧
      (Solver.solveLoop (gsl_multifit_fdfsolver_iterate demoSolver.type)
        (Solver.testDelta DoubleArith.exact) 0 demoSolver.pSolver []).calls.count
          Call.test_delta = 2 - 1 := by
  obtain ⟨N, _, _, _, _, h5, h6, _, _, h9⟩ :=
    (solve_iteration_count (α := ℚ) (σ := Nat)).1
      (gsl_multifit_fdfsolver_iterate demoSolver.type) (Solver.testDelta DoubleArith.exact)
      demoSolver.pSolver
  have hN : N = 2 := by
    rw [← h5]
    exact congrArg LoopResult.iter demo_solve_eval
  subst hN
  have hs : iterStatus (gsl_multifit_fdfsolver_iterate demoSolver.type) demoSolver.pSolver 2
      ≠ 0 := by
    simp [iterStatus, iterState, demo_pSolver, demo_type, gsl_multifit_fdfsolver_iterate,
      edgeType]
  exact ⟨hs, h6, (h9 hs).2.2⟩

/-! ## The convergence test in binary64 -/

set_option maxRecDepth 8000 in
/-- Sample evaluations of the binary64 operations: `0.1 + 0.2`, `0.1 * 0.1`, the tolerance
`1e-4 + 1e-4 * 2.5` in its two steps, and `2.49965 + 0.00035 = 2.5`. -/
theorem binary64_samples :
    Binary64.add ⟨0x3FB999999999999A⟩ ⟨0x3FC999999999999A⟩ = ⟨0x3FD3333333333334⟩ ∧
      Binary64.mul ⟨0x3FB999999999999A⟩ ⟨0x3FB999999999999A⟩ = ⟨0x3F847AE147AE147C⟩ ∧
      Binary64.mul Binary64.arith.tol ⟨0x4004000000000000⟩ = ⟨0x3F30624DD2F1A9FC⟩ ∧
      Binary64.add Binary64.arith.tol ⟨0x3F30624DD2F1A9FC⟩ = ⟨0x3F36F0068DB8BAC7⟩ ∧
      Binary64.add ⟨0x4003FF487FCB923A⟩ ⟨0x3F36F0068DB8BAC7⟩ = ⟨0x4004000000000000⟩ := by
  decide

/-- The pattern used for the literal `1e-4` is within half a unit in the last place of
`1/10000`, and it is not negative. -/
theorem binary64_tol_nearest :
    |Binary64.toRat Binary64.arith.tol - 1 / 10000| ≤ 1 / 2 ^ 67 ∧
      Binary64.arith.lt Binary64.arith.tol 0 = false := by
  constructor
  · rw [abs_le]
    constructor <;> norm_num [Binary64.arith, Binary64.toRat]
  · decide

set_option maxRecDepth 8000 in
theorem float_steps :
    floatSolver.pSolver = ⟨[0, 0], List.replicate 10 0, [0, 0], 0⟩ ∧
      gsl_multifit_fdfsolver_iterate floatSolver.type floatSolver.pSolver = (0, floatState1) ∧
      gsl_multifit_fdfsolver_iterate floatSolver.type floatState1 = (0, floatState2) ∧
      gsl_multifit_fdfsolver_iterate floatSolver.type floatState2 = (27, floatState3) := by
  decide

set_option maxRecDepth 8000 in
theorem float_tests :
    Solver.testDelta Binary64.arith floatState1 = GSL_CONTINUE ∧
      Solver.testDelta Binary64.arith floatState2 = GSL_CONTINUE := by
  decide

theorem float_solve_eval :
    (floatSolver.solve Binary64.arith).2 =
      ⟨27, 3, floatState3,
        [Call.iterate, Call.test_delta, Call.iterate, Call.test_delta, Call.iterate]⟩ := by
  simp only [Solver.solve]
  rw [solveLoop_unfold, float_steps.2.1]
  simp only [ne_eq, not_true_eq_false, if_false, float_tests.1, true_and, zero_add]
  rw [if_pos (by norm_num)]
  rw [solveLoop_unfold, float_steps.2.2.1]
  simp only [ne_eq, not_true_eq_false, if_false, float_tests.2, true_and]
  rw [if_pos (by norm_num)]
  rw [solveLoop_unfold, float_steps.2.2.2]
  simp

theorem float_iterates :
    iterState (gsl_multifit_fdfsolver_iterate floatSolver.type) floatSolver.pSolver 1 =
        floatState1 ∧
      iterState (gsl_multifit_fdfsolver_iterate floatSolver.type) floatSolver.pSolver 2 =
        floatState2 ∧
      iterStatus (gsl_multifit_fdfsolver_iterate floatSolver.type) floatSolver.pSolver 2 = 0 := by
  simp [iterStatus, iterState, float_steps.2.1, float_steps.2.2.1]

/-- C6, as the code has it: after a successful `k`-th iteration that the loop of
`Solver::solve` performs, the loop ends there with a status other than `GSL_CONTINUE` if and
only if `fabs(dx_j) < 1e-4 + 1e-4 * fabs(x_j)` holds, strictly, for every component `j` of the
current estimate `x` and the most recent step `dx`, where the tolerance on the right is computed
in the arithmetic of the program: one multiplication, then one addition, each as that arithmetic
performs it. The statement holds in every arithmetic in which `1e-4 < 0.0` is false, binary64
and exact arithmetic alike. -/
theorem solve_reports_convergence_iff {α σ : Type} [Zero α] (A : DoubleArith α)
    (hr : A.lt A.tol 0 = false) (s : Solver α σ) (k : Nat) (hk1 : 1 ≤ k)
    (hk2 : k ≤ (s.solve A).2.iter)
    (hok : iterStatus (gsl_multifit_fdfsolver_iterate s.type) s.pSolver k = 0) :
    ((s.solve A).2.iter = k ∧ (s.solve A).2.status ≠ GSL_CONTINUE) ↔
      ∀ j, j < (iterState (gsl_multifit_fdfsolver_iterate s.type) s.pSolver k).x.length →
        A.lt
          (A.fabs (gsl_vector_get
            (iterState (gsl_multifit_fdfsolver_iterate s.type) s.pSolver k).dx j))
          (A.add A.tol (A.mul A.tol (A.fabs (gsl_vector_get
            (iterState (gsl_multifit_fdfsolver_iterate s.type) s.pSolver k).x j)))) = true := by
  obtain ⟨m, hm1, hm2, hiter, hstop, hmin, hps, hstat, hcalls⟩ :=
    solveLoop_spec (gsl_multifit_fdfsolver_iterate s.type) (Solver.testDelta (σ := σ) A)
      500 0 s.pSolver [] (by omega) (by omega)
  have hsolve : (s.solve A).2 = Solver.solveLoop (gsl_multifit_fdfsolver_iterate s.type)
      (Solver.testDelta A) 0 s.pSolver [] := rfl
  rw [hsolve] at hk2 ⊢
  rw [hiter, zero_add] at hk2
  rw [hiter, zero_add, hstat,
    ← (testDelta_ne_continue_iff A hr
      (iterState (gsl_multifit_fdfsolver_iterate s.type) s.pSolver k)).1]
  constructor
  · rintro ⟨rfl, hne⟩
    rw [if_neg (not_not.mpr hok)] at hne
    exact hne
  · intro hne
    have hmk : m = k := by
      by_contra hcon
      have hlt : k < m := by omega
      exact hne (hmin k hk1 hlt).2
    subst hmk
    rw [if_neg (not_not.mpr hok)]
    exact ⟨rfl, hne⟩

/-- Witness for C6: the second iteration of the constructed solver over `boundaryType`, in
binary64. -/
theorem solve_reports_convergence_iff_witness :
    (Binary64.arith.lt Binary64.arith.tol 0 = false ∧ 1 ≤ 2 ∧
      2 ≤ (floatSolver.solve Binary64.arith).2.iter ∧
      iterStatus (gsl_multifit_fdfsolver_iterate floatSolver.type) floatSolver.pSolver 2 = 0) ∧
    (((floatSolver.solve Binary64.arith).2.iter = 2 ∧
        (floatSolver.solve Binary64.arith).2.status ≠ GSL_CONTINUE) ↔
      ∀ j, j < (iterState (gsl_multifit_fdfsolver_iterate floatSolver.type)
          floatSolver.pSolver 2).x.length →
        Binary64.arith.lt
          (Binary64.arith.fabs (gsl_vector_get
            (iterState (gsl_multifit_fdfsolver_iterate floatSolver.type)
              floatSolver.pSolver 2).dx j))
          (Binary64.arith.add Binary64.arith.tol (Binary64.arith.mul Binary64.arith.tol
            (Binary64.arith.fabs (gsl_vector_get
              (iterState (gsl_multifit_fdfsolver_iterate floatSolver.type)
                floatSolver.pSolver 2).x j)))) = true) :=
  ⟨⟨binary64_tol_nearest.2, by decide, by rw [float_solve_eval]; decide, float_iterates.2.2⟩,
    solve_reports_convergence_iff Binary64.arith binary64_tol_nearest.2 floatSolver 2
      (by decide) (by rw [float_solve_eval]; decide) float_iterates.2.2⟩

set_option maxRecDepth 8000 in
theorem float_boundary_le :
    ∀ j, j < floatState2.x.length →
      Binary64.le (Binary64.fabs (gsl_vector_get floatState2.dx j))
        (Binary64.add Binary64.arith.tol (Binary64.mul Binary64.arith.tol
          (Binary64.fabs (gsl_vector_get floatState2.x j)))) = true := by
  decide

theorem float_boundary_exact :
    ∀ j, j < floatState2.x.length →
      |Binary64.toRat (gsl_vector_get floatState2.dx j)| ≤
        1 / 10000 + 1 / 10000 * |Binary64.toRat (gsl_vector_get floatState2.x j)| := by
  intro j hj
  have hj2 : j < 2 := by simpa [floatState2] using hj
  interval_cases j
  · have hdx : Binary64.toRat (gsl_vector_get floatState2.dx 0) =
        6456360425798343 / 2 ^ 64 := by
      norm_num [floatState2, gsl_vector_get, Binary64.toRat]
    have hx : Binary64.toRat (gsl_vector_get floatState2.x 0) = 5 / 2 := by
      norm_num [floatState2, gsl_vector_get, Binary64.toRat]
    rw [hdx, hx, abs_of_pos (by norm_num), abs_of_pos (by norm_num)]
    norm_num
  · have h0 : (0 : Binary64).bits = 0 := rfl
    have hdx : Binary64.toRat (gsl_vector_get floatState2.dx 1) = 0 := by
      simp [floatState2, gsl_vector_get, Binary64.toRat, h0]
    have hx : Binary64.toRat (gsl_vector_get floatState2.x 1) = 0 := by
      simp [floatState2, gsl_vector_get, Binary64.toRat, h0]
    rw [hdx, hx]
    norm_num

/-- C6 as stated fails on the boundary, in the arithmetic of the program. Over `boundaryType`
the second iteration succeeds and leaves the estimate `x = [2.5, 0]`, reached from
`[2.49965, 0]` by the step `dx = [0.00035, 0]` (in binary64, `x = x_prev + dx`). The tolerance
`1e-4 + 1e-4 * 2.5` rounds to the double `0.00035` itself, so `fabs(dx_j) <= tolerance` holds
for every `j` in binary64, and `|dx_j| ≤ 1/10000 + 1/10000 * |x_j|` holds for the exact values
of these doubles; yet the loop does not end after this iteration. -/
theorem solve_reports_convergence_le_false :
    iterStatus (gsl_multifit_fdfsolver_iterate floatSolver.type) floatSolver.pSolver 2 = 0 ∧
    2 ≤ (floatSolver.solve Binary64.arith).2.iter ∧
    (iterState (gsl_multifit_fdfsolver_iterate floatSolver.type) floatSolver.pSolver 2).x =
      List.zipWith Binary64.add
        (iterState (gsl_multifit_fdfsolver_iterate floatSolver.type) floatSolver.pSolver 1).x
        (iterState (gsl_multifit_fdfsolver_iterate floatSolver.type) floatSolver.pSolver 2).dx ∧
    (∀ j, j < (iterState (gsl_multifit_fdfsolver_iterate floatSolver.type)
        floatSolver.pSolver 2).x.length →
      Binary64.le
        (Binary64.fabs (gsl_vector_get
          (iterState (gsl_multifit_fdfsolver_iterate floatSolver.type)
            floatSolver.pSolver 2).dx j))
        (Binary64.add Binary64.arith.tol (Binary64.mul Binary64.arith.tol
          (Binary64.fabs (gsl_vector_get
            (iterState (gsl_multifit_fdfsolver_iterate floatSolver.type)
              floatSolver.pSolver 2).x j)))) = true) ∧
    (∀ j, j < (iterState (gsl_multifit_fdfsolver_iterate floatSolver.type)
        floatSolver.pSolver 2).x.length →
      |Binary64.toRat (gsl_vector_get
          (iterState (gsl_multifit_fdfsolver_iterate floatSolver.type)
            floatSolver.pSolver 2).dx j)| ≤
        1 / 10000 + 1 / 10000 *
          |Binary64.toRat (gsl_vector_get
            (iterState (gsl_multifit_fdfsolver_iterate floatSolver.type)
              floatSolver.pSolver 2).x j)|) ∧
    ¬ ((floatSolver.solve Binary64.arith).2.iter = 2 ∧
      (floatSolver.solve Binary64.arith).2.status ≠ GSL_CONTINUE) := by
  rw [float_iterates.1, float_iterates.2.1, float_solve_eval]
  refine ⟨float_iterates.2.2, by decide, ?_, float_boundary_le, float_boundary_exact, ?_⟩
  · rw [← (Prod.mk.inj float_steps.2.2.1).2]
  · intro h
    exact absurd h.1 (by decide)

/-! ## `setY` and the dimension invariants -/

theorem memSolver_values :
    memSolver.coords.self.map Binary64.toRat = [1, 2, 3, 4, 5, 6, 7, 8, 9, 10] ∧
      memSolver.y.self.map Binary64.toRat = [8, 13, 18, 23, 28, 33, 38, 43, 48, 53] ∧
      memSolver.initialParams.self.map Binary64.toRat = [0, 0] := by
  refine ⟨?_, ?_, ?_⟩ <;> norm_num [memSolver, Binary64.toRat]

/-- C8 on the code: `setY` copies `yVals.size()` bytes, not elements. On the constructed solver
with ten copies of `0.1`, only `y_0` receives the new value; `y_1` keeps its upper six bytes
(the pattern of `13` with the two low bytes of `0.1`), and `y_2 .. y_9` keep their old values
`18, ..., 53`. -/
theorem setY_copies_ten_bytes :
    (memSolver.setY Binary64.rep tenths).y.self =
      [⟨0x3FB999999999999A⟩, ⟨0x402A00000000999A⟩, ⟨0x4032000000000000⟩,
        ⟨0x4037000000000000⟩, ⟨0x403C000000000000⟩, ⟨0x4040800000000000⟩,
        ⟨0x4043000000000000⟩, ⟨0x4045800000000000⟩, ⟨0x4048000000000000⟩,
        ⟨0x404A800000000000⟩] ∧
    tenths.length = memSolver.nPoints ∧
    (memSolver.setY Binary64.rep tenths).y.self ≠ tenths := by
  decide

theorem inv_of_dims_eq {α σ β τ : Type} (s : Solver α σ) (s' : Solver β τ)
    (h : s'.dims = s.dims) (hs : s.Inv) : s'.Inv := by
  simp only [Solver.dims, Prod.mk.injEq] at h
  obtain ⟨h1, h2, h3, h4, h5⟩ := h
  obtain ⟨i1, i2, i3, i4⟩ := hs
  exact ⟨by omega, by omega, by omega, by omega⟩

/-- C9: the solver the constructor builds has `nPoints = 10`, `nParams = 2` and satisfies the
dimension invariants (`len coords = len y = nPoints`, `len initialParams = nParams`,
`nParams ≤ nPoints`); and `set`, `solve` and `setY` (called within the bounds of the two byte
arrays `memcpy` works on) change none of `nPoints`, `nParams` and the lengths of the coordinate,
value and parameter vectors, so they preserve the invariants. `f` and `df` only write their
output argument: in the embedding they return no solver at all. -/
theorem dimension_invariants_preserved {α β σ τ : Type} [Zero α] :
    (∀ T : gsl_multifit_fdfsolver_type ℚ σ,
      (Solver.new T).Inv ∧ (Solver.new T).nPoints = 10 ∧ (Solver.new T).nParams = 2) ∧
    (∀ s : Solver β τ, s.set.dims = s.dims ∧ (s.Inv → s.set.Inv)) ∧
    (∀ (A : DoubleArith α) (s : Solver α σ),
      (s.solve A).1.dims = s.dims ∧ (s.Inv → (s.solve A).1.Inv)) ∧
    (∀ (R : ObjRep β) (s : Solver β τ) (yVals : List β),
      yVals.length ≤ (R.bytes s.y.self).length → yVals.length ≤ (R.bytes yVals).length →
      (s.setY R yVals).dims = s.dims ∧ (s.Inv → (s.setY R yVals).Inv)) := by
  refine ⟨?_, ?_, ?_, ?_⟩
  · intro T
    refine ⟨⟨?_, ?_, ?_, ?_⟩, (new_dims T).1, (new_dims T).2.1⟩
    · simp [new_coords, new_dims]
    · simp [new_y, new_dims]
    · simp [new_dims]
    · simp [new_dims]
  · intro s
    have h : s.set.dims = s.dims := rfl
    exact ⟨h, inv_of_dims_eq s s.set h⟩
  · intro A s
    have h : (s.solve A).1.dims = s.dims := rfl
    exact ⟨h, inv_of_dims_eq s (s.solve A).1 h⟩
  · intro R s yVals _ _
    have h : (s.setY R yVals).dims = s.dims := by
      simp [Solver.setY, Solver.dims, ObjRep.elements]
    exact ⟨h, inv_of_dims_eq s (s.setY R yVals) h⟩

/-- Witness for C9: `setY` with ten elements on the memory image of the constructed solver. -/
theorem dimension_invariants_preserved_witness :
    (tenths.length ≤ (Binary64.rep.bytes memSolver.y.self).length ∧
      tenths.length ≤ (Binary64.rep.bytes tenths).length ∧ memSolver.Inv) ∧
    (memSolver.setY Binary64.rep tenths).dims = memSolver.dims ∧
    (memSolver.setY Binary64.rep tenths).Inv :=
  ⟨⟨by decide, by decide, by decide⟩,
    ((dimension_invariants_preserved (α := ℚ) (σ := Nat)).2.2.2 Binary64.rep memSolver tenths
      (by decide) (by decide)).1,
    ((dimension_invariants_preserved (α := ℚ) (σ := Nat)).2.2.2 Binary64.rep memSolver tenths
      (by decide) (by decide)).2 (by decide)⟩

end FittingAdventures
